import Mathlib

/-!
Shallow embedding of `google/pylib/validate_configuration.py` (class
`ValidateConfig`) and proofs about the claims of the specification.

Modelling conventions:
* The bindings dictionary `self.__bindings` is a partial map
  `String → Option String`; `dict.get(k, '')` is `(b k).getD ""`.
* The error list `self.__errors` is threaded explicitly: every check takes
  the current log and returns the updated log.
* The external collaborators (metadata fetches via `fetch`/`fetch_or_die`,
  `running_on_gce`, `os.path.exists`, `os.stat`) are modelled as fields of
  an environment record `Env`; the validator only consumes their outputs.
* Python exceptions that can escape a check are modelled by the `VResult`
  type: `.ok r log` is a normal return, `.exn e log` is a raised exception
  carrying the log as it stood when the exception was raised.  Two
  exceptions are possible: `fetch_or_die` aborting the process, and the
  `AttributeError` raised by the `self._errors` typo on the invalid-value
  path of `verify_true_false`.
* The regular expressions of the source are compiled by hand into
  executable character-list matchers (`re.match` with `^...$` anchors is
  full-string matching; the Python `$`-before-trailing-newline quirk is
  not modelled, no claim depends on strings containing newlines).
* `validate()`'s `print` statements are I/O and are not modelled; the
  boolean result and the error log are.
-/

/-- Lowercase ASCII letter, as in the character classes of the source regexes. -/
def isLowerAlpha (c : Char) : Bool :=
  'a' ≤ c && c ≤ 'z'

/-- Uppercase ASCII letter. -/
def isUpperAlpha (c : Char) : Bool :=
  'A' ≤ c && c ≤ 'Z'

/-- ASCII digit. -/
def isDigitChar (c : Char) : Bool :=
  '0' ≤ c && c ≤ '9'

/-- Character class `[-_\.a-z0-9]` of the host part of `regex_address`. -/
def isHostChar (c : Char) : Bool :=
  c = '-' || c = '_' || c = '.' || isLowerAlpha c || isDigitChar c

/-- Character class `[-_a-zA-Z0-9\+%/]` of the path part of `regex_address`. -/
def isPathChar (c : Char) : Bool :=
  c = '-' || c = '_' || c = '+' || c = '%' || c = '/' ||
    isLowerAlpha c || isUpperAlpha c || isDigitChar c

/-- Character class `[/a-zA-Z0-9]` of `aws_key_regex`. -/
def isAwsKeyChar (c : Char) : Bool :=
  c = '/' || isLowerAlpha c || isUpperAlpha c || isDigitChar c

/-- Character class `[-_a-zA-Z0-9]` of `account_name_regex`. -/
def isAccountNameChar (c : Char) : Bool :=
  c = '-' || c = '_' || isLowerAlpha c || isUpperAlpha c || isDigitChar c

/-- Character class `[-a-z0-9]` of the body of `gce_name_regex`. -/
def isGceBodyChar (c : Char) : Bool :=
  c = '-' || isLowerAlpha c || isDigitChar c

/-- Character class `[a-z0-9]` of the final character of `gce_name_regex`. -/
def isGceTailChar (c : Char) : Bool :=
  isLowerAlpha c || isDigitChar c

/-- Matcher for the optional `/`-path tail of
`regex_address = ^[-_\.a-z0-9]+(:[0-9]+)?(/[-_a-zA-Z0-9\+%/]+)?$`:
a literal `/` followed by one or more path characters. -/
def matchPathTail : List Char → Bool
  | '/' :: r => !r.isEmpty && r.all isPathChar
  | _ => false

/-- Matcher for the part of `regex_address` after the host: nothing, or
`:` and one or more digits, optionally followed by the path tail. -/
def matchPortPath : List Char → Bool
  | [] => true
  | ':' :: r =>
    let ds := r.takeWhile isDigitChar
    let r2 := r.dropWhile isDigitChar
    !ds.isEmpty && (r2.isEmpty || matchPathTail r2)
  | l => matchPathTail l

/-- Full-string matcher for
`regex_address = ^[-_\.a-z0-9]+(:[0-9]+)?(/[-_a-zA-Z0-9\+%/]+)?$` used by
`verify_host_port`.  The host class contains neither `:` nor `/`, so the
greedy split at the first non-host character is exact. -/
def matchHostPort (s : String) : Bool :=
  let host := s.data.takeWhile isHostChar
  let rest := s.data.dropWhile isHostChar
  !host.isEmpty && matchPortPath rest

/-- Full-string matcher for `aws_key_regex = ^[/a-zA-Z0-9]+$`. -/
def matchAwsKey (s : String) : Bool :=
  !s.data.isEmpty && s.data.all isAwsKeyChar

/-- Full-string matcher for `account_name_regex = ^[-_a-zA-Z0-9]+$`. -/
def matchAccountName (s : String) : Bool :=
  !s.data.isEmpty && s.data.all isAccountNameChar

/-- Full-string matcher for
`gce_name_regex = ^[a-z]([-a-z0-9]\x7b0,61\x7d[a-z0-9])?$`: a lowercase
letter, optionally followed by a group of at most 61 body characters and
one final tail character (so the group, when present, has 1 to 62
characters). -/
def matchGceName (s : String) : Bool :=
  match s.data with
  | [] => false
  | c :: rest =>
    isLowerAlpha c &&
      (rest.isEmpty ||
        (rest.length ≤ 62 && rest.dropLast.all isGceBodyChar &&
          ((rest.getLast?).map isGceTailChar).getD false))

/-- Prefix test on character lists: `charsPrefix n h` is true when `n` is a
prefix of `h` (used to model Python's `str.find(sub) >= 0`). -/
def charsPrefix : List Char → List Char → Bool
  | [], _ => true
  | _ :: _, [] => false
  | a :: as, b :: bs => a = b && charsPrefix as bs

/-- Substring containment on character lists. -/
def charsContains (hay needle : List Char) : Bool :=
  charsPrefix needle hay ||
    (match hay with
     | [] => false
     | _ :: t => charsContains t needle)

/-- Python `hay.find(needle) >= 0`: `needle` occurs somewhere in `hay`. -/
def strContainsSub (hay needle : String) : Bool :=
  charsContains hay.data needle.data

/-- Python `os.path.basename`: the part of the path after the last `/`. -/
def basename (s : String) : String :=
  (s.splitOn "/").getLastD ""

/-- Python `os.path.join` restricted to two components, as used by the
source (`os.path.join(config_dir, 'spinnaker_config.cfg')`). -/
def path_join (a : String) (c : String) : String :=
  if c.startsWith "/" then c
  else if a = "" then c
  else if a.endsWith "/" then a ++ c
  else a ++ "/" ++ c

/-- Python `'%03o' % n`: octal digits of `n`, left-padded with `0` to at
least three characters. -/
def octal3 (n : Nat) : String :=
  let s := String.mk (Nat.toDigits 8 n)
  if s.length < 3 then String.mk (List.replicate (3 - s.length) '0') ++ s else s

/-- The bindings mapping `self.__bindings`: a partial map from
configuration-key to configuration-value. -/
def Bindings : Type := String → Option String

/-- The error list `self.__errors`. -/
abbrev ErrorLog : Type := List String

/-- The two exceptions that can escape a check of the source:
`fetch_or_die` failing (it aborts the whole process), and the
`AttributeError` raised by the `self._errors` typo in `verify_true_false`. -/
inductive Abort : Type where
  | fetchOrDieFailed : Abort
  | attributeError : Abort
deriving DecidableEq, Repr

/-- Result of a check that may raise: a normal return with the updated
error log, or a raised exception together with the log as it stood at the
raise site. -/
inductive VResult (α : Type) : Type where
  | ok : α → ErrorLog → VResult α
  | exn : Abort → ErrorLog → VResult α
deriving DecidableEq, Repr

/-- The error log carried by a `VResult`, whether returned or raised. -/
def logOf : VResult Bool → ErrorLog
  | .ok _ l => l
  | .exn _ l => l

/-- Environment of external collaborators consumed by the validator:
`running_on_gce`, the metadata fetches, and the filesystem, plus the
`CONFIG_DIR` installation parameter recorded at construction. -/
structure Env : Type where
  runningOnGce : Bool
  serviceAccountsFetch : Nat × String
  scopesFetch : String → Nat × String
  projectIdFetch : Option String
  pathExists : String → Bool
  stMode : String → Nat
  configDir : String

/-- Message `'Missing "{name}}".'` (shared by `verify_true_false` and
`verify_host_port`). -/
def missingMsg (name : String) : String :=
  "Missing \"" ++ name ++ "\"."

/-- Message `'No address provided for "{name}}".'` of `verify_host_port`. -/
def noAddressMsg (name : String) : String :=
  "No address provided for \"" ++ name ++ "\"."

/-- Message `'name="{value}}" is not in <host>[:<port>][/path] form.'` of
`verify_host_port` (the source interpolates the value, not the name). -/
def badAddressMsg (value : String) : String :=
  "name=\"" ++ value ++ "\" is not in <host>[:<port>][/path] form."

/-- The single required scope `auth_url_path + '/compute'`. -/
def requiredScopes : List String :=
  ["https://www.googleapis.com/auth/compute"]

/-- Message `'Missing required scope "{scope}}".'` of `verify_gce_scopes`. -/
def missingScopeMsg (scope : String) : String :=
  "Missing required scope \"" ++ scope ++ "\"."

/-- The literal `aws_key_regex` of the source. -/
def aws_key_regex : String := "^[/a-zA-Z0-9]+$"

/-- Access-key error message of `verify_aws_provider`. -/
def awsAccessKeyMsg : String :=
  "AWS_ACCESS_KEY does not look like " ++ aws_key_regex ++ "."

/-- Secret-key error message of `verify_aws_provider` (the source says
`AWS_SECRET`, not `AWS_SECRET_KEY`). -/
def awsSecretKeyMsg : String :=
  "AWS_SECRET does not look like " ++ aws_key_regex ++ "."

/-- The literal `gce_name_regex` of the source,
`^[a-z]([-a-z0-9]\x7b0,61\x7d[a-z0-9])?$`. -/
def gce_name_regex : String :=
  "^[a-z]([-a-z0-9]\x7b0,61\x7d[a-z0-9])?$"

/-- The literal `account_name_regex` of the source. -/
def account_name_regex : String := "^[-_a-zA-Z0-9]+$"

/-- Malformed `GOOGLE_MANAGED_PROJECT_ID` message of `verify_gce_provider`. -/
def gceMidRegexMsg (mid : String) : String :=
  "GOOGLE_MANAGED_PROJECT_ID=\"" ++ mid ++ "\" does not look like " ++
    gce_name_regex ++ "."

/-- Missing-credential-path message of `verify_gce_provider`. -/
def credRequiredMsg (mid pid : String) : String :=
  "GOOGLE_JSON_CREDENTIAL_PATH is required because" ++
    " GOOGLE_MANAGED_PROJECT_ID=\"" ++ mid ++ "\" is not this project \"" ++
    pid ++ "\"."

/-- Nonexistent-credential-path message of `verify_gce_provider`. -/
def credNonexistMsg (path : String) : String :=
  "GOOGLE_JSON_CREDENTIAL_PATH=\"" ++ path ++ "\" does not exist."

/-- Malformed `GOOGLE_ACCOUNT_NAME` message of `verify_gce_provider`. -/
def accountNameMsg (value : String) : String :=
  "GOOGLE_ACCOUNT_NAME=\"" ++ value ++ "\" does not look like " ++
    account_name_regex ++ "."

/-- Docker enabled-but-no-target-repository message (with the `DOCKER_ENABED`
typo of the source). -/
def dockerEnabledNoRepoMsg : String :=
  "DOCKER_ENABED but DOCKER_TARGET_REPOSITORY is not provided."

/-- Jenkins address-without-username message of `verify_jenkins`. -/
def jenkinsMsg : String :=
  "JENKINS_ADDRESS is provided, but not JENKINS_USERNAME."

/-- Permission message of `verify_user_access_only`:
`'"{path}}" should not have non-owner access. Mode is {mode}}.'` where the
mode is rendered as `'%03o' % (st_mode & 0xfff)`. -/
def uaoMsg (path : String) (mode : Nat) : String :=
  "\"" ++ path ++ "\" should not have non-owner access. Mode is " ++
    octal3 (mode &&& 4095) ++ "."

/-- Embedding of `ValidateConfig.verify_true_false`.  The invalid-value
branch of the source appends to `self._errors`, a nonexistent attribute
(`self.__errors` everywhere else), so it raises `AttributeError` before
anything is appended: modelled as `.exn .attributeError errs`. -/
def verify_true_false (b : Bindings) (name : String) (errs : ErrorLog) :
    VResult Bool :=
  match b name with
  | none => .ok false (errs ++ [missingMsg name])
  | some value =>
    if value ∈ (["true", "false"] : List String) then .ok true errs
    else .exn .attributeError errs

/-- Embedding of `ValidateConfig.verify_host_port`. -/
def verify_host_port (b : Bindings) (name : String) (required : Bool)
    (errs : ErrorLog) : Bool × ErrorLog :=
  match b name with
  | none => (false, errs ++ [missingMsg name])
  | some value =>
    if value = "" then
      if !required then (true, errs)
      else (false, errs ++ [noAddressMsg name])
    else if matchHostPort value then (true, errs)
    else (false, errs ++ [badAddressMsg value])

/-- Embedding of `ValidateConfig.verify_gce_scopes` (a procedure: it only
appends to the error log, returning `None`).  The service-account list
fetch is treated as empty on a non-200 code; the per-account scopes fetch
ignores the code entirely, exactly as the source does. -/
def verify_gce_scopes (env : Env) (errs : ErrorLog) : ErrorLog :=
  if !env.runningOnGce then errs
  else
    let service_accounts :=
      if env.serviceAccountsFetch.1 ≠ 200 then "" else env.serviceAccountsFetch.2
    let found_scopes :=
      ((service_accounts.splitOn "\n").filter (fun a => a ≠ "")).foldl
        (fun found account =>
          let account :=
            if account.endsWith "/" then account.dropRight 1 else account
          let body := (env.scopesFetch (basename account)).2
          found ++ requiredScopes.filter (fun scope => strContainsSub body scope))
        []
    requiredScopes.foldl
      (fun es scope =>
        if scope ∈ found_scopes then es else es ++ [missingScopeMsg scope])
      errs

/-- Embedding of `ValidateConfig.verify_aws_provider`. -/
def verify_aws_provider (b : Bindings) (errs : ErrorLog) : VResult Bool :=
  match verify_true_false b "AWS_ENABLED" errs with
  | .exn e l => .exn e l
  | .ok r errs1 =>
    if !r then .ok false errs1
    else if (b "AWS_ENABLED").getD "" ≠ "true" then .ok true errs1
    else
      let p1 : Bool × ErrorLog :=
        if !matchAwsKey ((b "AWS_ACCESS_KEY").getD "") then
          (false, errs1 ++ [awsAccessKeyMsg])
        else (true, errs1)
      let p2 : Bool × ErrorLog :=
        if !matchAwsKey ((b "AWS_SECRET_KEY").getD "") then
          (false, p1.2 ++ [awsSecretKeyMsg])
        else (p1.1, p1.2)
      .ok p2.1 p2.2

/-- Embedding of `ValidateConfig.verify_gce_provider`.  `fetch_or_die` on
the project id aborts the whole process when the fetch fails: modelled as
`.exn .fetchOrDieFailed` when the environment has no project id. -/
def verify_gce_provider (env : Env) (b : Bindings) (errs : ErrorLog) :
    VResult Bool :=
  match env.projectIdFetch with
  | none => .exn .fetchOrDieFailed errs
  | some project_id =>
    let managed_project_id := (b "GOOGLE_MANAGED_PROJECT_ID").getD ""
    let p1 : Bool × ErrorLog :=
      if managed_project_id ≠ "" then
        let q1 : Bool × ErrorLog :=
          if !matchGceName managed_project_id then
            (false, errs ++ [gceMidRegexMsg managed_project_id])
          else (true, errs)
        if managed_project_id ≠ project_id then
          let path := (b "GOOGLE_JSON_CREDENTIAL_PATH").getD ""
          if path = "" then
            (false, q1.2 ++ [credRequiredMsg managed_project_id project_id])
          else if !env.pathExists path then
            (false, q1.2 ++ [credNonexistMsg path])
          else (q1.1, q1.2)
        else (q1.1, q1.2)
      else (true, errs)
    let account_name := (b "GOOGLE_ACCOUNT_NAME").getD ""
    if !matchAccountName account_name then
      .ok false (p1.2 ++ [accountNameMsg account_name])
    else .ok p1.1 p1.2

/-- Embedding of `ValidateConfig.verify_docker`. -/
def verify_docker (b : Bindings) (errs : ErrorLog) : VResult Bool :=
  let p1 := verify_host_port b "DOCKER_ADDRESS" false errs
  let p2 := verify_host_port b "DOCKER_TARGET_REPOSITORY" false p1.2
  let ok := p2.1 && p1.1
  match verify_true_false b "DOCKER_ENABLED" p2.2 with
  | .exn e l => .exn e l
  | .ok r errs3 =>
    if r && ((b "DOCKER_ENABLED").getD "" = "true" &&
             (b "DOCKER_TARGET_REPOSITORY").getD "" = "") then
      .ok false (errs3 ++ [dockerEnabledNoRepoMsg])
    else .ok ok errs3

/-- Embedding of `ValidateConfig.verify_jenkins` (a procedure: the local
`ok` of the source is computed but never returned). -/
def verify_jenkins (b : Bindings) (errs : ErrorLog) : ErrorLog :=
  let p1 := verify_host_port b "JENKINS_ADDRESS" false errs
  if (b "JENKINS_ADDRESS").getD "" ≠ "" && (b "JENKINS_USERNAME").getD "" = ""
  then p1.2 ++ [jenkinsMsg]
  else p1.2

/-- Embedding of `ValidateConfig.verify_user_access_only`:
`st_mode & 077` selects the group/other permission bits. -/
def verify_user_access_only (env : Env) (path : String) (errs : ErrorLog) :
    Bool × ErrorLog :=
  if !env.pathExists path then (true, errs)
  else if env.stMode path &&& 63 ≠ 0 then
    (false, errs ++ [uaoMsg path (env.stMode path)])
  else (true, errs)

/-- Embedding of `ValidateConfig.verify_security`. -/
def verify_security (env : Env) (b : Bindings) (errs : ErrorLog) :
    Bool × ErrorLog :=
  let p1 :=
    verify_user_access_only env ((b "GOOGLE_JSON_CREDENTIAL_PATH").getD "") errs
  let p2 :=
    verify_user_access_only env (path_join env.configDir "spinnaker_config.cfg")
      p1.2
  (p2.1 && p1.1, p2.2)

/-- Embedding of `ValidateConfig.validate`: the six checks in source order
(their return values are ignored), then `True` iff the error list is
empty.  An exception raised by a check propagates and no boolean is
returned. -/
def validateRun (env : Env) (b : Bindings) (errs : ErrorLog) : VResult Bool :=
  let errs1 := verify_gce_scopes env errs
  match verify_gce_provider env b errs1 with
  | .exn e l => .exn e l
  | .ok _ errs2 =>
    match verify_aws_provider b errs2 with
    | .exn e l => .exn e l
    | .ok _ errs3 =>
      match verify_docker b errs3 with
      | .exn e l => .exn e l
      | .ok _ errs4 =>
        let errs5 := verify_jenkins b errs4
        let errs6 := (verify_security env b errs5).2
        if errs6.isEmpty then .ok true errs6 else .ok false errs6

/-- Shifting a `VResult` by a log prefix: used to state that every check
only appends to the log it is given and its behaviour is otherwise
independent of that log. -/
def vshift (x : ErrorLog) : VResult Bool → VResult Bool
  | .ok r d => .ok r (x ++ d)
  | .exn e d => .exn e (x ++ d)

theorem vshift_append (x y : ErrorLog) (v : VResult Bool) :
    vshift (x ++ y) v = vshift x (vshift y v) := by
  cases v <;> simp [vshift]

theorem logOf_vshift (x : ErrorLog) (v : VResult Bool) :
    logOf (vshift x v) = x ++ logOf v := by
  cases v <;> simp [vshift, logOf]

theorem shift_of_frame {f : ErrorLog → VResult Bool}
    (hf : ∀ errs, f errs = vshift errs (f [])) (x y : ErrorLog) :
    f (x ++ y) = vshift x (f y) := by
  rw [hf (x ++ y), hf y, vshift_append]

theorem pshift_of_frame {f : ErrorLog → Bool × ErrorLog}
    (hf : ∀ errs, f errs = ((f []).1, errs ++ (f []).2)) (x y : ErrorLog) :
    f (x ++ y) = ((f y).1, x ++ (f y).2) := by
  rw [hf (x ++ y), hf y]
  simp [List.append_assoc]

theorem lshift_of_frame {f : ErrorLog → ErrorLog}
    (hf : ∀ errs, f errs = errs ++ f []) (x y : ErrorLog) :
    f (x ++ y) = x ++ f y := by
  rw [hf (x ++ y), hf y, List.append_assoc]

theorem verify_true_false_frame (b : Bindings) (name : String)
    (errs : ErrorLog) :
    verify_true_false b name errs = vshift errs (verify_true_false b name []) := by
  unfold verify_true_false
  cases b name with
  | none => simp [vshift]
  | some v =>
    by_cases hv : v ∈ (["true", "false"] : List String) <;> simp [hv, vshift]

theorem verify_host_port_frame (b : Bindings) (name : String) (required : Bool)
    (errs : ErrorLog) :
    verify_host_port b name required errs =
      ((verify_host_port b name required []).1,
        errs ++ (verify_host_port b name required []).2) := by
  unfold verify_host_port
  cases b name with
  | none => simp
  | some v =>
    cases required <;> by_cases hv : v = "" <;>
      by_cases hm : matchHostPort v <;> simp [hv, hm]

theorem verify_gce_scopes_frame (env : Env) (errs : ErrorLog) :
    verify_gce_scopes env errs = errs ++ verify_gce_scopes env [] := by
  unfold verify_gce_scopes
  split
  · simp
  · simp only [requiredScopes, List.foldl_cons, List.foldl_nil]
    split <;> split <;> simp

theorem verify_gce_provider_frame (env : Env) (b : Bindings) (errs : ErrorLog) :
    verify_gce_provider env b errs = vshift errs (verify_gce_provider env b []) := by
  unfold verify_gce_provider
  cases env.projectIdFetch with
  | none => simp [vshift]
  | some pid =>
    simp only [vshift]
    split_ifs <;> simp [vshift, List.append_assoc]

theorem verify_user_access_only_frame (env : Env) (path : String)
    (errs : ErrorLog) :
    verify_user_access_only env path errs =
      ((verify_user_access_only env path []).1,
        errs ++ (verify_user_access_only env path []).2) := by
  unfold verify_user_access_only
  split_ifs <;> simp

theorem verify_aws_provider_frame (b : Bindings) (errs : ErrorLog) :
    verify_aws_provider b errs = vshift errs (verify_aws_provider b []) := by
  unfold verify_aws_provider
  rw [verify_true_false_frame b "AWS_ENABLED" errs]
  cases verify_true_false b "AWS_ENABLED" [] with
  | exn e d => simp [vshift]
  | ok r d =>
    simp only [vshift]
    split_ifs <;> simp [List.append_assoc]

theorem verify_gce_provider_shift (env : Env) (b : Bindings) (x y : ErrorLog) :
    verify_gce_provider env b (x ++ y) = vshift x (verify_gce_provider env b y) :=
  shift_of_frame (verify_gce_provider_frame env b) x y

theorem verify_aws_provider_shift (b : Bindings) (x y : ErrorLog) :
    verify_aws_provider b (x ++ y) = vshift x (verify_aws_provider b y) :=
  shift_of_frame (verify_aws_provider_frame b) x y

theorem verify_jenkins_frame (b : Bindings) (errs : ErrorLog) :
    verify_jenkins b errs = errs ++ verify_jenkins b [] := by
  unfold verify_jenkins
  rw [verify_host_port_frame b "JENKINS_ADDRESS" false errs]
  dsimp only
  split_ifs <;> simp [List.append_assoc]

theorem verify_jenkins_shift (b : Bindings) (x y : ErrorLog) :
    verify_jenkins b (x ++ y) = x ++ verify_jenkins b y :=
  lshift_of_frame (verify_jenkins_frame b) x y

theorem verify_security_frame (env : Env) (b : Bindings) (errs : ErrorLog) :
    verify_security env b errs =
      ((verify_security env b []).1, errs ++ (verify_security env b []).2) := by
  unfold verify_security
  rw [verify_user_access_only_frame env ((b "GOOGLE_JSON_CREDENTIAL_PATH").getD "")
        errs]
  dsimp only
  rw [pshift_of_frame
        (verify_user_access_only_frame env
          (path_join env.configDir "spinnaker_config.cfg")) errs
        (verify_user_access_only env ((b "GOOGLE_JSON_CREDENTIAL_PATH").getD "")
            []).2]

theorem verify_security_shift (env : Env) (b : Bindings) (x y : ErrorLog) :
    verify_security env b (x ++ y) =
      ((verify_security env b y).1, x ++ (verify_security env b y).2) :=
  pshift_of_frame (verify_security_frame env b) x y

theorem verify_docker_frame (b : Bindings) (errs : ErrorLog) :
    verify_docker b errs = vshift errs (verify_docker b []) := by
  unfold verify_docker
  rw [verify_host_port_frame b "DOCKER_ADDRESS" false errs]
  dsimp only
  rw [pshift_of_frame (verify_host_port_frame b "DOCKER_TARGET_REPOSITORY" false)
        errs (verify_host_port b "DOCKER_ADDRESS" false []).2]
  dsimp only
  rw [shift_of_frame (verify_true_false_frame b "DOCKER_ENABLED") errs
        (verify_host_port b "DOCKER_TARGET_REPOSITORY" false
          (verify_host_port b "DOCKER_ADDRESS" false []).2).2]
  cases verify_true_false b "DOCKER_ENABLED"
      (verify_host_port b "DOCKER_TARGET_REPOSITORY" false
        (verify_host_port b "DOCKER_ADDRESS" false []).2).2 with
  | exn e l => simp [vshift]
  | ok r l =>
    simp only [vshift]
    split_ifs <;> simp [List.append_assoc]

theorem verify_docker_shift (b : Bindings) (x y : ErrorLog) :
    verify_docker b (x ++ y) = vshift x (verify_docker b y) :=
  shift_of_frame (verify_docker_frame b) x y

/-- Shifting the result of `validateRun` by a log prefix: the exception
cases only append, while a normal return recomputes the emptiness test on
the extended log. -/
def runShift (x : ErrorLog) : VResult Bool → VResult Bool
  | .exn e d => .exn e (x ++ d)
  | .ok _ d => if (x ++ d).isEmpty then .ok true (x ++ d) else .ok false (x ++ d)

theorem validateRun_frame (env : Env) (b : Bindings) (errs : ErrorLog) :
    validateRun env b errs = runShift errs (validateRun env b []) := by
  unfold validateRun
  dsimp only
  rw [verify_gce_scopes_frame env errs]
  rw [verify_gce_provider_shift env b errs (verify_gce_scopes env [])]
  cases verify_gce_provider env b (verify_gce_scopes env []) with
  | exn e d => simp [vshift, runShift]
  | ok r d =>
    simp only [vshift]
    rw [verify_aws_provider_shift b errs d]
    cases verify_aws_provider b d with
    | exn e d2 => simp [vshift, runShift]
    | ok r2 d2 =>
      simp only [vshift]
      rw [verify_docker_shift b errs d2]
      cases verify_docker b d2 with
      | exn e d3 => simp [vshift, runShift]
      | ok r3 d3 =>
        simp only [vshift]
        rw [verify_jenkins_shift b errs d3]
        rw [verify_security_shift env b errs (verify_jenkins b d3)]
        dsimp only
        by_cases hL : ((verify_security env b (verify_jenkins b d3)).2).isEmpty <;>
          simp [runShift, hL]

theorem credMsg_ne (mid pid path : String) :
    credRequiredMsg mid pid ≠ credNonexistMsg path := by
  intro h
  have h2 := congrArg (fun s => s.data.take 28) h
  simp only [credRequiredMsg, credNonexistMsg, String.data_append,
    List.append_assoc] at h2
  rw [List.take_append_of_le_length (by decide),
      List.take_append_of_le_length (by decide)] at h2
  exact absurd h2 (by decide)

/-- Test environment: not running on GCE, the metadata project id
available as `my-project`, an empty filesystem. -/
def testEnv : Env where
  runningOnGce := false
  serviceAccountsFetch := (404, "")
  scopesFetch := fun _ => (404, "")
  projectIdFetch := some "my-project"
  pathExists := fun _ => false
  stMode := fun _ => 0
  configDir := "/opt/spinnaker/config"

/-- C10: the error log is append-only throughout a validation run: for
every check operation and every starting state of the log, the log after
the operation (whether the operation returns or raises) has the original
entries, unmodified and in order, as a prefix. -/
theorem c10_error_log_append_only (env : Env) (b : Bindings)
    (name path : String) (required : Bool) (errs : ErrorLog) :
    errs <+: logOf (verify_true_false b name errs) ∧
    errs <+: (verify_host_port b name required errs).2 ∧
    errs <+: verify_gce_scopes env errs ∧
    errs <+: logOf (verify_aws_provider b errs) ∧
    errs <+: logOf (verify_gce_provider env b errs) ∧
    errs <+: logOf (verify_docker b errs) ∧
    errs <+: verify_jenkins b errs ∧
    errs <+: (verify_user_access_only env path errs).2 ∧
    errs <+: (verify_security env b errs).2 ∧
    errs <+: logOf (validateRun env b errs) := by
  refine ⟨?_, ?_, ?_, ?_, ?_, ?_, ?_, ?_, ?_, ?_⟩
  · rw [verify_true_false_frame, logOf_vshift]
    exact List.prefix_append _ _
  · rw [verify_host_port_frame]
    exact List.prefix_append _ _
  · rw [verify_gce_scopes_frame]
    exact List.prefix_append _ _
  · rw [verify_aws_provider_frame, logOf_vshift]
    exact List.prefix_append _ _
  · rw [verify_gce_provider_frame, logOf_vshift]
    exact List.prefix_append _ _
  · rw [verify_docker_frame, logOf_vshift]
    exact List.prefix_append _ _
  · rw [verify_jenkins_frame]
    exact List.prefix_append _ _
  · rw [verify_user_access_only_frame]
    exact List.prefix_append _ _
  · rw [verify_security_frame]
    exact List.prefix_append _ _
  · rw [validateRun_frame]
    cases validateRun env b [] with
    | exn e d =>
      simp only [runShift, logOf]
      exact List.prefix_append _ _
    | ok r d =>
      by_cases hd : (errs ++ d).isEmpty <;>
        simp only [runShift, logOf, hd, if_true, if_false, Bool.false_eq_true,
          ite_false, ite_true] <;>
        exact List.prefix_append _ _

/-- C9: calling `validate()` a second time on the same validator instance
(same bindings, filesystem and metadata responses; the error log is not
reset, so the second call starts from the log the first call left) yields
the same boolean result, with the error messages accumulated twice. -/
theorem c9_validate_idempotent (env : Env) (b : Bindings) (r1 : Bool)
    (l1 : ErrorLog) (h : validateRun env b [] = .ok r1 l1) :
    validateRun env b l1 = .ok r1 (l1 ++ l1) := by
  have h0 := validateRun_frame env b []
  rw [h] at h0
  have hf := validateRun_frame env b l1
  rw [h] at hf
  by_cases hl : l1.isEmpty
  · have hl0 : l1 = [] := by simpa using hl
    subst hl0
    have hr : r1 = true := by simpa [runShift] using h0
    subst hr
    simpa [runShift] using hf
  · have hr : r1 = false := by simpa [runShift, hl] using h0
    subst hr
    have hne : (l1 ++ l1).isEmpty = false := by
      cases l1 with
      | nil => simp at hl
      | cons a t => rfl
    simpa [runShift, hne] using hf

/-- Bindings used for the second-call witness: everything well-formed
except that `JENKINS_ADDRESS` is absent, so one error accumulates per run. -/
def c9Bindings : Bindings := fun k =>
  if k = "GOOGLE_ACCOUNT_NAME" then some "spinnaker"
  else if k = "AWS_ENABLED" then some "false"
  else if k = "DOCKER_ADDRESS" then some ""
  else if k = "DOCKER_TARGET_REPOSITORY" then some ""
  else if k = "DOCKER_ENABLED" then some "false"
  else none

theorem c9_validate_idempotent_witness :
    validateRun testEnv c9Bindings [missingMsg "JENKINS_ADDRESS"] =
      .ok false
        ([missingMsg "JENKINS_ADDRESS"] ++ [missingMsg "JENKINS_ADDRESS"]) :=
  c9_validate_idempotent testEnv c9Bindings false
    [missingMsg "JENKINS_ADDRESS"] (by decide)

/-- C7: for every bindings mapping in which the named key is absent,
`verify_true_false(name)` and `verify_host_port(name, required)` each
append exactly one `Missing "name".` error and return false. -/
theorem c7_missing_field (b : Bindings) (name : String) (required : Bool)
    (errs : ErrorLog) (h : b name = none) :
    verify_true_false b name errs = .ok false (errs ++ [missingMsg name]) ∧
    verify_host_port b name required errs = (false, errs ++ [missingMsg name]) := by
  unfold verify_true_false verify_host_port
  rw [h]
  exact ⟨rfl, rfl⟩

/-- Bindings with no key at all. -/
def emptyBindings : Bindings := fun _ => none

theorem c7_missing_field_witness :
    verify_true_false emptyBindings "AWS_ENABLED" [] =
        .ok false ([] ++ [missingMsg "AWS_ENABLED"]) ∧
      verify_host_port emptyBindings "AWS_ENABLED" true [] =
        (false, [] ++ [missingMsg "AWS_ENABLED"]) :=
  c7_missing_field emptyBindings "AWS_ENABLED" true [] rfl

/-- C8: with `DOCKER_ENABLED="true"` and `DOCKER_TARGET_REPOSITORY` unset
or empty, `verify_docker` returns false and appends the specific
enabled-but-no-target-repository error as the last entry, whatever
`DOCKER_ADDRESS` is (the bindings are otherwise unconstrained). -/
theorem c8_docker_enabled_no_repo (b : Bindings) (errs : ErrorLog)
    (h1 : b "DOCKER_ENABLED" = some "true")
    (h2 : (b "DOCKER_TARGET_REPOSITORY").getD "" = "") :
    ∃ l, verify_docker b errs = .ok false (l ++ [dockerEnabledNoRepoMsg]) := by
  have hv : ∀ e, verify_true_false b "DOCKER_ENABLED" e = .ok true e := by
    intro e
    unfold verify_true_false
    rw [h1]
    simp
  refine ⟨(verify_host_port b "DOCKER_TARGET_REPOSITORY" false
      (verify_host_port b "DOCKER_ADDRESS" false errs).2).2, ?_⟩
  unfold verify_docker
  dsimp only
  rw [hv]
  simp [h1, h2]

/-- Bindings for the Docker witness: enabled, empty target repository,
and a malformed `DOCKER_ADDRESS`. -/
def c8Bindings : Bindings := fun k =>
  if k = "DOCKER_ENABLED" then some "true"
  else if k = "DOCKER_TARGET_REPOSITORY" then some ""
  else if k = "DOCKER_ADDRESS" then some "Not a valid address!"
  else none

theorem c8_docker_enabled_no_repo_witness :
    ∃ l, verify_docker c8Bindings [] = .ok false (l ++ [dockerEnabledNoRepoMsg]) :=
  c8_docker_enabled_no_repo c8Bindings [] (by decide) (by decide)

/-- Bindings exhibiting the `self._errors` typo: a key whose value is
neither `"true"` nor `"false"`. -/
def c2Bindings : Bindings := fun k =>
  if k = "SOME_FLAG" then some "maybe" else none

/-- C2 (code bug): with the field present but neither `"true"` nor
`"false"`, `verify_true_false` does not append an invalid-value error and
return false; it raises `AttributeError` (the failure path appends to
`self._errors`, which does not exist — the field is `self.__errors`),
leaving the log unchanged. -/
theorem c2_true_false_invalid_value_raises :
    verify_true_false c2Bindings "SOME_FLAG" [] = .exn .attributeError [] := by
  decide

/-- Bindings on which `validate()` crashes: everything fine except
`AWS_ENABLED="maybe"`. -/
def c1Bindings : Bindings := fun k =>
  if k = "GOOGLE_ACCOUNT_NAME" then some "spinnaker"
  else if k = "AWS_ENABLED" then some "maybe"
  else none

/-- C1 (code bug): on bindings with an invalid boolean field
(`AWS_ENABLED="maybe"`), `validate()` does not run all six checks and
return a boolean: the AWS check raises `AttributeError` (via the
`self._errors` typo in `verify_true_false`), the Docker, Jenkins and
security checks are skipped, and no boolean is returned. -/
theorem c1_validate_aborts_on_invalid_boolean :
    validateRun testEnv c1Bindings [] = .exn .attributeError [] := by
  decide

theorem verify_true_false_of_valid (b : Bindings) (name value : String)
    (hb : b name = some value) (hval : value ∈ (["true", "false"] : List String))
    (errs : ErrorLog) : verify_true_false b name errs = .ok true errs := by
  unfold verify_true_false
  rw [hb]
  simp [hval]

theorem verify_true_false_exn (b : Bindings) (name : String) (errs : ErrorLog)
    (e : Abort) (l : ErrorLog)
    (h : verify_true_false b name errs = .exn e l) : e = .attributeError := by
  unfold verify_true_false at h
  cases hb : b name with
  | none =>
    rw [hb] at h
    simp at h
  | some v =>
    rw [hb] at h
    by_cases hv : v ∈ (["true", "false"] : List String) <;> simp [hv] at h
    exact h.1.symm

theorem verify_aws_provider_exn (b : Bindings) (errs : ErrorLog) (e : Abort)
    (l : ErrorLog) (h : verify_aws_provider b errs = .exn e l) :
    e = .attributeError := by
  unfold verify_aws_provider at h
  cases h4 : verify_true_false b "AWS_ENABLED" errs with
  | exn e2 l2 =>
    rw [h4] at h
    have h5 := verify_true_false_exn b "AWS_ENABLED" errs e2 l2 h4
    simp at h
    obtain ⟨he, -⟩ := h
    exact he ▸ h5
  | ok r l2 =>
    rw [h4] at h
    dsimp only at h
    split_ifs at h

theorem verify_docker_exn (b : Bindings) (errs : ErrorLog) (e : Abort)
    (l : ErrorLog) (h : verify_docker b errs = .exn e l) :
    e = .attributeError := by
  unfold verify_docker at h
  dsimp only at h
  cases h4 : verify_true_false b "DOCKER_ENABLED"
      (verify_host_port b "DOCKER_TARGET_REPOSITORY" false
        (verify_host_port b "DOCKER_ADDRESS" false errs).2).2 with
  | exn e2 l2 =>
    rw [h4] at h
    have h5 := verify_true_false_exn b "DOCKER_ENABLED" _ e2 l2 h4
    simp at h
    obtain ⟨he, -⟩ := h
    exact he ▸ h5
  | ok r l2 =>
    rw [h4] at h
    dsimp only at h
    split_ifs at h

theorem verify_gce_provider_ok (env : Env) (b : Bindings) (errs : ErrorLog)
    (pid : String) (hp : env.projectIdFetch = some pid) :
    ∃ r l, verify_gce_provider env b errs = .ok r l := by
  unfold verify_gce_provider
  rw [hp]
  dsimp only
  split_ifs <;> exact ⟨_, _, rfl⟩

/-- C3: with AWS enabled and an invalid (for instance empty) access key,
`verify_aws_provider` returns false and appends exactly one access-key
error, plus exactly one secret-key error when the secret key is invalid
too; the appended messages are independent of the credential values: two
runs whose bindings differ only in the invalid key values append the same
`delta` of messages. -/
theorem c3_aws_errors_value_independent (b1 b2 : Bindings)
    (errs1 errs2 : ErrorLog)
    (h1 : b1 "AWS_ENABLED" = some "true") (h2 : b2 "AWS_ENABLED" = some "true")
    (ha1 : (b1 "AWS_ACCESS_KEY").getD "" = "")
    (ha2 : matchAwsKey ((b2 "AWS_ACCESS_KEY").getD "") = false)
    (hs : matchAwsKey ((b1 "AWS_SECRET_KEY").getD "") =
      matchAwsKey ((b2 "AWS_SECRET_KEY").getD "")) :
    ∃ delta,
      verify_aws_provider b1 errs1 = .ok false (errs1 ++ delta) ∧
      verify_aws_provider b2 errs2 = .ok false (errs2 ++ delta) ∧
      delta = awsAccessKeyMsg ::
        (if matchAwsKey ((b1 "AWS_SECRET_KEY").getD "") = true then []
         else [awsSecretKeyMsg]) := by
  have hmz : matchAwsKey "" = false := by decide
  refine ⟨awsAccessKeyMsg ::
      (if matchAwsKey ((b1 "AWS_SECRET_KEY").getD "") = true then []
       else [awsSecretKeyMsg]), ?_, ?_, rfl⟩
  · unfold verify_aws_provider
    rw [verify_true_false_of_valid b1 "AWS_ENABLED" "true" h1 (by simp)]
    dsimp only
    by_cases hb1 : matchAwsKey ((b1 "AWS_SECRET_KEY").getD "") = true <;>
      simp [h1, ha1, hmz, hb1]
  · unfold verify_aws_provider
    rw [verify_true_false_of_valid b2 "AWS_ENABLED" "true" h2 (by simp)]
    dsimp only
    by_cases hb1 : matchAwsKey ((b1 "AWS_SECRET_KEY").getD "") = true <;>
      simp [h2, ha2, ← hs, hb1]

/-- AWS bindings with an empty access key and an invalid secret key. -/
def c3BindingsA : Bindings := fun k =>
  if k = "AWS_ENABLED" then some "true"
  else if k = "AWS_ACCESS_KEY" then some ""
  else if k = "AWS_SECRET_KEY" then some "hunter two!" else none

/-- AWS bindings differing from `c3BindingsA` only in the (still invalid)
key values. -/
def c3BindingsB : Bindings := fun k =>
  if k = "AWS_ENABLED" then some "true"
  else if k = "AWS_ACCESS_KEY" then some "an entirely different bad key?"
  else if k = "AWS_SECRET_KEY" then some "@@@" else none

theorem c3_aws_errors_value_independent_witness :
    ∃ delta,
      verify_aws_provider c3BindingsA [] = .ok false ([] ++ delta) ∧
      verify_aws_provider c3BindingsB [] = .ok false ([] ++ delta) ∧
      delta = awsAccessKeyMsg ::
        (if matchAwsKey ((c3BindingsA "AWS_SECRET_KEY").getD "") = true then []
         else [awsSecretKeyMsg]) :=
  c3_aws_errors_value_independent c3BindingsA c3BindingsB [] [] (by decide)
    (by decide) (by decide) (by decide) (by decide)

/-- C5: when `GOOGLE_MANAGED_PROJECT_ID` is set and differs from the
fetched project id, and the credential path is unset or nonexistent,
`verify_gce_provider` returns false with the corresponding error appended
(one message for absence, a different one for nonexistence), alongside the
independent name-format checks. -/
theorem c5_gce_credential_required (env : Env) (b : Bindings) (errs : ErrorLog)
    (pid : String) (hf : env.projectIdFetch = some pid)
    (hm : (b "GOOGLE_MANAGED_PROJECT_ID").getD "" ≠ "")
    (hne : (b "GOOGLE_MANAGED_PROJECT_ID").getD "" ≠ pid)
    (hcred : (b "GOOGLE_JSON_CREDENTIAL_PATH").getD "" = "" ∨
      ((b "GOOGLE_JSON_CREDENTIAL_PATH").getD "" ≠ "" ∧
        env.pathExists ((b "GOOGLE_JSON_CREDENTIAL_PATH").getD "") = false)) :
    verify_gce_provider env b errs = .ok false
      (errs ++
        (if matchGceName ((b "GOOGLE_MANAGED_PROJECT_ID").getD "") = true then []
         else [gceMidRegexMsg ((b "GOOGLE_MANAGED_PROJECT_ID").getD "")]) ++
        (if (b "GOOGLE_JSON_CREDENTIAL_PATH").getD "" = "" then
          [credRequiredMsg ((b "GOOGLE_MANAGED_PROJECT_ID").getD "") pid]
         else [credNonexistMsg ((b "GOOGLE_JSON_CREDENTIAL_PATH").getD "")]) ++
        (if matchAccountName ((b "GOOGLE_ACCOUNT_NAME").getD "") = true then []
         else [accountNameMsg ((b "GOOGLE_ACCOUNT_NAME").getD "")])) ∧
    credRequiredMsg ((b "GOOGLE_MANAGED_PROJECT_ID").getD "") pid ≠
      credNonexistMsg ((b "GOOGLE_JSON_CREDENTIAL_PATH").getD "") := by
  refine ⟨?_, credMsg_ne _ _ _⟩
  unfold verify_gce_provider
  rw [hf]
  dsimp only
  rcases hcred with hc | hcc
  · by_cases hmid :
        matchGceName ((b "GOOGLE_MANAGED_PROJECT_ID").getD "") = true <;>
      by_cases hacct :
        matchAccountName ((b "GOOGLE_ACCOUNT_NAME").getD "") = true <;>
      simp [hm, hne, hc, hmid, hacct]
  · obtain ⟨hc, hex⟩ := hcc
    by_cases hmid :
        matchGceName ((b "GOOGLE_MANAGED_PROJECT_ID").getD "") = true <;>
      by_cases hacct :
        matchAccountName ((b "GOOGLE_ACCOUNT_NAME").getD "") = true <;>
      simp [hm, hne, hc, hex, hmid, hacct]

/-- Bindings with a managed project id differing from the fetched project
id and no credential path configured. -/
def c5Bindings : Bindings := fun k =>
  if k = "GOOGLE_MANAGED_PROJECT_ID" then some "managed-project"
  else if k = "GOOGLE_ACCOUNT_NAME" then some "spinnaker" else none

theorem c5_gce_credential_required_witness :
    verify_gce_provider testEnv c5Bindings [] = .ok false
      ([] ++
        (if matchGceName ((c5Bindings "GOOGLE_MANAGED_PROJECT_ID").getD "") = true
         then []
         else [gceMidRegexMsg ((c5Bindings "GOOGLE_MANAGED_PROJECT_ID").getD "")]) ++
        (if (c5Bindings "GOOGLE_JSON_CREDENTIAL_PATH").getD "" = "" then
          [credRequiredMsg ((c5Bindings "GOOGLE_MANAGED_PROJECT_ID").getD "")
            "my-project"]
         else [credNonexistMsg ((c5Bindings "GOOGLE_JSON_CREDENTIAL_PATH").getD "")]) ++
        (if matchAccountName ((c5Bindings "GOOGLE_ACCOUNT_NAME").getD "") = true
         then []
         else [accountNameMsg ((c5Bindings "GOOGLE_ACCOUNT_NAME").getD "")])) ∧
    credRequiredMsg ((c5Bindings "GOOGLE_MANAGED_PROJECT_ID").getD "")
        "my-project" ≠
      credNonexistMsg ((c5Bindings "GOOGLE_JSON_CREDENTIAL_PATH").getD "") :=
  c5_gce_credential_required testEnv c5Bindings [] "my-project" rfl (by decide)
    (by decide) (Or.inl (by decide))

/-- C6: a failed project-id fetch makes `verify_gce_provider` — and with
it the whole of `validate()` — abort via `fetch_or_die` without appending
an accumulated error; it is the only check escalated this way (when the
fetch succeeds no `fetch_or_die` abort can come out of `validate()`),
while the other externally-dependent checks (scopes fetches, filesystem
stats) always run to completion, only appending error strings. -/
theorem c6_fatal_project_id_fetch (env : Env) (b : Bindings) (errs : ErrorLog) :
    (env.projectIdFetch = none →
      verify_gce_provider env b errs = .exn .fetchOrDieFailed errs ∧
      validateRun env b errs =
        .exn .fetchOrDieFailed (verify_gce_scopes env errs)) ∧
    (env.projectIdFetch ≠ none →
      ∀ l, validateRun env b errs ≠ .exn .fetchOrDieFailed l) ∧
    (∃ d, verify_gce_scopes env errs = errs ++ d) ∧
    (∃ d, (verify_security env b errs).2 = errs ++ d) := by
  refine ⟨?_, ?_, ?_, ?_⟩
  · intro h
    have hg : ∀ e, verify_gce_provider env b e = .exn .fetchOrDieFailed e := by
      intro e
      unfold verify_gce_provider
      rw [h]
    refine ⟨hg errs, ?_⟩
    unfold validateRun
    dsimp only
    rw [hg (verify_gce_scopes env errs)]
  · intro h l hcontra
    obtain ⟨pid, hp⟩ := Option.ne_none_iff_exists'.mp h
    unfold validateRun at hcontra
    dsimp only at hcontra
    obtain ⟨r1, l1, hg⟩ :=
      verify_gce_provider_ok env b (verify_gce_scopes env errs) pid hp
    rw [hg] at hcontra
    dsimp only at hcontra
    cases ha : verify_aws_provider b l1 with
    | exn e2 l2 =>
      rw [ha] at hcontra
      have h5 := verify_aws_provider_exn b l1 e2 l2 ha
      simp at hcontra
      obtain ⟨he, -⟩ := hcontra
      rw [he] at h5
      simp at h5
    | ok r2 l2 =>
      rw [ha] at hcontra
      dsimp only at hcontra
      cases hd : verify_docker b l2 with
      | exn e3 l3 =>
        rw [hd] at hcontra
        have h5 := verify_docker_exn b l2 e3 l3 hd
        simp at hcontra
        obtain ⟨he, -⟩ := hcontra
        rw [he] at h5
        simp at h5
      | ok r3 l3 =>
        rw [hd] at hcontra
        dsimp only at hcontra
        split_ifs at hcontra
  · exact ⟨verify_gce_scopes env [], verify_gce_scopes_frame env errs⟩
  · exact ⟨(verify_security env b []).2, by rw [verify_security_frame]⟩

/-- Environment in which the project-id metadata fetch fails. -/
def envNoProject : Env where
  runningOnGce := false
  serviceAccountsFetch := (404, "")
  scopesFetch := fun _ => (404, "")
  projectIdFetch := none
  pathExists := fun _ => false
  stMode := fun _ => 0
  configDir := "/opt/spinnaker/config"

theorem c6_fatal_project_id_fetch_witness :
    (verify_gce_provider envNoProject emptyBindings [] =
        .exn .fetchOrDieFailed [] ∧
      validateRun envNoProject emptyBindings [] =
        .exn .fetchOrDieFailed (verify_gce_scopes envNoProject [])) ∧
    (∀ l, validateRun testEnv emptyBindings [] ≠ .exn .fetchOrDieFailed l) :=
  ⟨(c6_fatal_project_id_fetch envNoProject emptyBindings []).1 rfl,
    (c6_fatal_project_id_fetch testEnv emptyBindings []).2.1 (by decide)⟩

/-- C4 (amended): a nonexistent path passes with no error appended; an
existing path whose mode grants any group/other permission bit fails with
one error reporting the path and the octal rendering of the full
permission mode `st_mode & 0xfff` (in whose last two octal digits the
violating bits appear), not the octal of the violating bits alone. -/
theorem c4_user_access_only (env : Env) (path : String) (errs : ErrorLog) :
    (env.pathExists path = false →
      verify_user_access_only env path errs = (true, errs)) ∧
    (env.pathExists path = true → env.stMode path &&& 63 ≠ 0 →
      verify_user_access_only env path errs =
        (false, errs ++ [uaoMsg path (env.stMode path)])) := by
  constructor
  · intro h
    unfold verify_user_access_only
    simp [h]
  · intro h hm
    unfold verify_user_access_only
    simp [h, hm]

/-- Environment with one file, `/home/spinnaker/credentials.json`, a
regular file of mode `0o100640` (group-readable). -/
def c4Env : Env where
  runningOnGce := false
  serviceAccountsFetch := (404, "")
  scopesFetch := fun _ => (404, "")
  projectIdFetch := some "my-project"
  pathExists := fun p => p == "/home/spinnaker/credentials.json"
  stMode := fun _ => 33184
  configDir := "/opt/spinnaker/config"

/-- C4 counterexample: on an existing file of mode `0o100640` the check
does return false, but the appended message reports the octal of the full
permission mode (`640`), and the octal of the violating group/other bits,
`st_mode & 077 = 0o40` rendered as `040`, appears nowhere in the message. -/
theorem c4_user_access_only_counterexample :
    verify_user_access_only c4Env "/home/spinnaker/credentials.json" [] =
      (false, [uaoMsg "/home/spinnaker/credentials.json" 33184]) ∧
    uaoMsg "/home/spinnaker/credentials.json" 33184 =
      "\"/home/spinnaker/credentials.json\" should not have non-owner access." ++
        " Mode is 640." ∧
    octal3 (33184 &&& 63) = "040" ∧
    strContainsSub (uaoMsg "/home/spinnaker/credentials.json" 33184) "040" =
      false := by
  refine ⟨?_, ?_, ?_, ?_⟩ <;> decide

theorem c4_user_access_only_witness :
    verify_user_access_only c4Env "/etc/motd" [] = (true, []) ∧
    verify_user_access_only c4Env "/home/spinnaker/credentials.json" ["x"] =
      (false, ["x"] ++ [uaoMsg "/home/spinnaker/credentials.json" 33184]) :=
  ⟨(c4_user_access_only c4Env "/etc/motd" []).1 (by decide),
    (c4_user_access_only c4Env "/home/spinnaker/credentials.json" ["x"]).2
      (by decide) (by decide)⟩
